import Mathlib

/-!
Shallow embedding of the redirect-sitelink-badge reconciliation bot
(`src/main.py`) and proofs about its classification, reconciliation and
reporting logic.

Conventions of the embedding:
* pandas DataFrames become typed row lists together with an explicit
  column-name list (`DataFrame`), since the source takes care to keep the
  column set intact even for empty frames;
* remote state consulted by the per-record re-verification pipeline is a
  `Remote` record fixed for the duration of one record's processing (the
  source performs blocking reads against a remote system; within one
  record's pipeline the source re-reads the same entity, which we model as
  reading the same snapshot);
* Python exceptions become explicit outcomes: `RuntimeWarning` raised by a
  helper is `Except.error` at the helper level; mutation helpers return a
  `MutResult` whose `Outcome` distinguishes `ok`, recoverable `skip`
  (`RuntimeWarning`) and non-recoverable `fatal` (`RuntimeError`);
* an exception that the source does not catch at a call site is modelled as
  loop control `LoopCtl.crash`, a caught fatal as `LoopCtl.stop`, and
  everything else as `LoopCtl.cont`;
* the remote write itself (`item.setSitelink` / `item.removeSitelink`) is
  modelled as always accepted by the collaborator; its rejection
  (`OtherPageSaveError`) is an external-system failure outside the decision
  logic studied here.
-/

/-- Badge item id for the "sitelink to redirect" badge (`QID_S2R`, KIND_A). -/
def QID_S2R : String := "Q70893996"

/-- Badge item id for the "intentional sitelink to redirect" badge (`QID_I2R`, KIND_B). -/
def QID_I2R : String := "Q70894304"

/-- `REDIRECT_LENGTH_CUTOFF = 100` bytes; longer redirect pages are kept
even if the target does not exist. -/
def REDIRECT_LENGTH_CUTOFF : Nat := 100

/-- A sitelink of a Wikidata item for one client site: page title plus the
badge item-ids it carries (`sitelink.badges` in the source, with
`badge_item.title()` giving the id string). -/
structure SiteLink where
  title : String
  badges : List String
deriving Repr, DecidableEq

/-- Outcome of one mutation helper call: `ok` (edit made and logged),
`skip` (a `RuntimeWarning`, recoverable), `fatal` (a `RuntimeError`,
non-recoverable programmer error). -/
inductive Outcome where
  | ok : Outcome
  | skip (reason : String) : Outcome
  | fatal (reason : String) : Outcome
deriving Repr, DecidableEq

/-- Whether an outcome is a recoverable skip (`RuntimeWarning`). -/
def Outcome.isSkip : Outcome → Bool
  | .skip _ => true
  | _ => false

/-- Whether an outcome is a fatal error (`RuntimeError`). -/
def Outcome.isFatal : Outcome → Bool
  | .fatal _ => true
  | _ => false

/-- A remote write against the item store. -/
inductive Write where
  | setSitelink (dbname : String) (title : String) (badges : List String) : Write
  | removeSitelinkWrite (dbname : String) : Write
deriving Repr, DecidableEq

/-- Result of one mutation helper (`add_badge` / `remove_badge` /
`remove_sitelink`): classified outcome, remote writes performed and
success log lines emitted. -/
structure MutResult where
  outcome : Outcome
  writes : List Write
  logs : List String
deriving Repr, DecidableEq

/-- `sitelink_has_any_of_badges` from the source: true when the sitelink
carries at least one of the given badges. -/
def sitelink_has_any_of_badges (sitelink : SiteLink) (has_none_of_badges : List String) : Bool :=
  if sitelink.badges.isEmpty then false
  else has_none_of_badges.any (fun qid_badge => sitelink.badges.contains qid_badge)

/-- `add_badge` from the source. Checks run in source order: invalid badge
kind raises `RuntimeError` (fatal); missing sitelink, badge already set,
or an incompatible badge present raise `RuntimeWarning` (skip). Otherwise
the new sitelink is written unless `simulate` is set, and the success log
line is emitted either way. -/
def add_badge (simulate : Bool) (itemTitle dbname : String) (sitelink : Option SiteLink)
    (qid_badge : String) (has_none_of_badges : Option (List String)) : MutResult :=
  if ¬ (qid_badge = QID_S2R ∨ qid_badge = QID_I2R) then
    ⟨.fatal "Invalid badge provided", [], []⟩
  else
    match sitelink with
    | none => ⟨.skip "No sitelink found", [], []⟩
    | some sl =>
      if sl.badges.contains qid_badge then
        ⟨.skip "Badge to add already set", [], []⟩
      else if (match has_none_of_badges with
               | some bs => sitelink_has_any_of_badges sl bs
               | none => false) then
        ⟨.skip "Sitelink does already have an incompatible badge", [], []⟩
      else
        ⟨.ok,
         if simulate then [] else [Write.setSitelink dbname sl.title (sl.badges ++ [qid_badge])],
         ["Added badge " ++ qid_badge ++ " to " ++ dbname ++ " sitelink in " ++ itemTitle]⟩

/-- `remove_badge` from the source. Invalid badge kind raises
`RuntimeError` (fatal); missing sitelink or badge not present raise
`RuntimeWarning` (skip). Otherwise the badge is filtered out of the
sitelink's badges and the sitelink rewritten unless `simulate` is set. -/
def remove_badge (simulate : Bool) (itemTitle dbname : String) (sitelink : Option SiteLink)
    (qid_badge : String) : MutResult :=
  if ¬ (qid_badge = QID_S2R ∨ qid_badge = QID_I2R) then
    ⟨.fatal "Invalid badge provided", [], []⟩
  else
    match sitelink with
    | none => ⟨.skip "No sitelink found", [], []⟩
    | some sl =>
      let new_badges := sl.badges.filter (fun b => b ≠ qid_badge)
      if new_badges.length = sl.badges.length then
        ⟨.skip "Badge to remove not found", [], []⟩
      else
        ⟨.ok,
         if simulate then [] else [Write.setSitelink dbname sl.title new_badges],
         ["Removed badge " ++ qid_badge ++ " from " ++ dbname ++ " sitelink in " ++ itemTitle]⟩

/-- `remove_sitelink` from the source: no precondition checks; the sitelink
removal is written unless `simulate` is set, and the success log line is
emitted either way. -/
def remove_sitelink (simulate : Bool) (itemTitle dbname : String) : MutResult :=
  ⟨.ok,
   if simulate then [] else [Write.removeSitelinkWrite dbname],
   ["Removed sitelink for " ++ dbname ++ " in " ++ itemTitle]⟩

/-- Remote-state snapshot for one record's re-verification pipeline:
what `item.get()`, the sitelink lookup, and the local page inspection on
the client site would observe during this record's processing. -/
structure Remote where
  itemMissing : Bool
  itemIsRedirect : Bool
  itemTitle : String
  sitelink : Option SiteLink
  pageIsRedirect : Bool
  pageExists : Bool
  circular : Bool
  interwiki : Bool
  targetExists : Bool
  targetConnected : Bool
  pageLen : Nat
deriving Repr, DecidableEq

/-- `is_redirect_page` from the source: `RuntimeWarning` when the item has
no sitelink for the project, otherwise whether the linked page is a
redirect. -/
def is_redirect_page (st : Remote) : Except String Bool :=
  match st.sitelink with
  | none => .error "No sitelink found"
  | some _ => .ok st.pageIsRedirect

/-- `target_exists` from the source: `RuntimeWarning` when the item has no
sitelink, the linked page is not a redirect, or the redirect is circular
or interwiki; otherwise whether the redirect target page exists. -/
def target_exists (st : Remote) : Except String Bool :=
  match st.sitelink with
  | none => .error "No sitelink found"
  | some _ =>
    if ¬ st.pageIsRedirect then .error "Cannot determine target of non-redirect page"
    else if st.circular then .error "Circular redirect detected"
    else if st.interwiki then .error "Interwiki redirect detected"
    else .ok st.targetExists

/-- `target_is_connected` from the source: `RuntimeWarning` when the item
has no sitelink, the linked page is not a redirect, or the target does not
exist; otherwise whether the target page is connected to an item. -/
def target_is_connected (st : Remote) : Except String Bool :=
  match st.sitelink with
  | none => .error "No sitelink found"
  | some _ =>
    if ¬ st.pageIsRedirect then .error "Cannot determine target of non-redirect page"
    else if ¬ st.targetExists then .error "Target of redirect page does not exist"
    else .ok st.targetConnected

/-- `has_badge` from the source: `RuntimeWarning` for an invalid badge kind
or a missing sitelink, otherwise whether the sitelink carries the badge. -/
def has_badge (st : Remote) (qid_badge : String) : Except String Bool :=
  if ¬ (qid_badge = QID_S2R ∨ qid_badge = QID_I2R) then .error "Invalid badge provided"
  else
    match st.sitelink with
    | none => .error "No sitelink found"
    | some sl => .ok (sl.badges.contains qid_badge)

/-- `get_page_len` from the source: `RuntimeWarning` when the item has no
sitelink or the local page does not exist, otherwise `len(local_page.text)`. -/
def get_page_len (st : Remote) : Except String Nat :=
  match st.sitelink with
  | none => .error "No sitelink found"
  | some _ =>
    if ¬ st.pageExists then .error "Local page does not exist"
    else .ok st.pageLen

/-- Which mutation helper a record's pipeline invoked. -/
inductive CallKind where
  | grantTag : CallKind
  | revokeTag : CallKind
  | removeLink : CallKind
deriving Repr, DecidableEq

/-- Loop control after one record: `cont` (next record), `stop` (caught
`RuntimeError`: `return` from the bucket function), `crash` (an uncaught
exception escaping the bucket function). -/
inductive LoopCtl where
  | cont : LoopCtl
  | stop : LoopCtl
  | crash : LoopCtl
deriving Repr, DecidableEq

/-- Result of processing one record: mutation helpers invoked, remote
writes performed, and loop control. -/
structure RecResult where
  calls : List CallKind
  writes : List Write
  ctl : LoopCtl
deriving Repr, DecidableEq

/-- Per-record body of `process_redirects_with_inexistent_target`
(lines 574-624 of the source): skip when the item is missing or is itself a
redirect, skip on any failed re-check (sitelink present, page still a
redirect, target still non-existent); then grant the S2R badge when the
page is longer than `REDIRECT_LENGTH_CUTOFF` (a fatal `RuntimeError` from
`add_badge` aborts the bucket), else remove the sitelink. The
`get_page_len` call is not wrapped in try/except in the source, so its
`RuntimeWarning` would escape the bucket function (`crash`). -/
def process_inexistent_record (simulate : Bool) (dbname : String) (st : Remote) : RecResult :=
  if st.itemMissing then ⟨[], [], .cont⟩
  else if st.itemIsRedirect then ⟨[], [], .cont⟩
  else
    match is_redirect_page st with
    | .error _ => ⟨[], [], .cont⟩
    | .ok false => ⟨[], [], .cont⟩
    | .ok true =>
      match target_exists st with
      | .error _ => ⟨[], [], .cont⟩
      | .ok true => ⟨[], [], .cont⟩
      | .ok false =>
        match get_page_len st with
        | .error _ => ⟨[], [], .crash⟩
        | .ok page_len =>
          if page_len > REDIRECT_LENGTH_CUTOFF then
            let res := add_badge simulate st.itemTitle dbname st.sitelink QID_S2R (some [QID_I2R])
            match res.outcome with
            | .fatal _ => ⟨[.grantTag], res.writes, .stop⟩
            | _ => ⟨[.grantTag], res.writes, .cont⟩
          else
            let res := remove_sitelink simulate st.itemTitle dbname
            ⟨[.removeLink], res.writes, .cont⟩

/-- Per-record body of `process_redirects_without_badge` (lines 638-689):
skip on any failed re-check (sitelink present, page a redirect, target
exists, target connected); then grant the S2R badge, with the incompatible
I2R badge blocking the grant inside `add_badge`. The `target_is_connected`
call is not wrapped in try/except in the source (`crash` on its
`RuntimeWarning`). -/
def process_without_badge_record (simulate : Bool) (dbname : String) (st : Remote) : RecResult :=
  if st.itemMissing then ⟨[], [], .cont⟩
  else if st.itemIsRedirect then ⟨[], [], .cont⟩
  else
    match is_redirect_page st with
    | .error _ => ⟨[], [], .cont⟩
    | .ok false => ⟨[], [], .cont⟩
    | .ok true =>
      match target_exists st with
      | .error _ => ⟨[], [], .cont⟩
      | .ok false => ⟨[], [], .cont⟩
      | .ok true =>
        match target_is_connected st with
        | .error _ => ⟨[], [], .crash⟩
        | .ok false => ⟨[], [], .cont⟩
        | .ok true =>
          let res := add_badge simulate st.itemTitle dbname st.sitelink QID_S2R (some [QID_I2R])
          match res.outcome with
          | .fatal _ => ⟨[.grantTag], res.writes, .stop⟩
          | _ => ⟨[.grantTag], res.writes, .cont⟩

/-- Per-record body of `process_redirects_with_both_badges`
(lines 697-747): skip on any failed re-check (sitelink present, page a
redirect, target exists and connected); then, only if the sitelink still
carries the I2R badge at re-check time, revoke the S2R badge. The
`target_is_connected` and `has_badge` calls are not wrapped in try/except
in the source (`crash` on their `RuntimeWarning`). -/
def process_both_badges_record (simulate : Bool) (dbname : String) (st : Remote) : RecResult :=
  if st.itemMissing then ⟨[], [], .cont⟩
  else if st.itemIsRedirect then ⟨[], [], .cont⟩
  else
    match is_redirect_page st with
    | .error _ => ⟨[], [], .cont⟩
    | .ok false => ⟨[], [], .cont⟩
    | .ok true =>
      match target_exists st with
      | .error _ => ⟨[], [], .cont⟩
      | .ok false => ⟨[], [], .cont⟩
      | .ok true =>
        match target_is_connected st with
        | .error _ => ⟨[], [], .crash⟩
        | .ok false => ⟨[], [], .cont⟩
        | .ok true =>
          match has_badge st QID_I2R with
          | .error _ => ⟨[], [], .crash⟩
          | .ok false => ⟨[], [], .cont⟩
          | .ok true =>
            let res := remove_badge simulate st.itemTitle dbname st.sitelink QID_S2R
            match res.outcome with
            | .fatal _ => ⟨[.revokeTag], res.writes, .stop⟩
            | _ => ⟨[.revokeTag], res.writes, .cont⟩

/-- Per-record body of the two loops of `process_non_redirects_with_badges`
(lines 755-822): skip when the item is missing, is itself a redirect, the
sitelink is absent, or the linked page turns out still to be a redirect;
otherwise revoke the given badge. -/
def process_non_redirect_record (simulate : Bool) (dbname : String) (qid_badge : String)
    (st : Remote) : RecResult :=
  if st.itemMissing then ⟨[], [], .cont⟩
  else if st.itemIsRedirect then ⟨[], [], .cont⟩
  else
    match is_redirect_page st with
    | .error _ => ⟨[], [], .cont⟩
    | .ok true => ⟨[], [], .cont⟩
    | .ok false =>
      let res := remove_badge simulate st.itemTitle dbname st.sitelink qid_badge
      match res.outcome with
      | .fatal _ => ⟨[.revokeTag], res.writes, .stop⟩
      | _ => ⟨[.revokeTag], res.writes, .cont⟩

/-- One row of the replica query in
`query_redirect_pages_linked_to_wikidata_item`: a local redirect page that
carries a Wikidata item id. The `target_*` fields come from LEFT JOINs and
are nullable (`target_id` null means the target page does not exist,
`target_qid` null means the target page carries no item id). -/
structure RedirectRow where
  redirect_id : String
  redirect_namespace : Int
  redirect_title : String
  redirect_qid : String
  target_namespace : Option Int
  target_title : Option String
  target_fragment : Option String
  target_interwiki : Option String
  target_id : Option Nat
  target_qid : Option String
deriving Repr, DecidableEq

/-- One raw row of the WDQS query in `query_redirect_badges`, before the
entity-URL slicing. -/
structure RawBadgeRow where
  item : String
  sitelink : String
  name : String
  badge : String
deriving Repr, DecidableEq

/-- One processed badge-assignment row: after `query_redirect_badges`
slices the entity URL off `item` (into `qid`) and `badge` and drops the
`item` column. -/
structure BadgeRow where
  sitelink : String
  name : String
  badge : String
  qid : String
deriving Repr, DecidableEq

/-- One row of the master dataframe produced by `make_master_df`: the
redirect fields (all nullable after the outer joins) plus the renamed
s2r and i2r badge-assignment fields. -/
structure MasterRow where
  redirect_id : Option String
  redirect_namespace : Option Int
  redirect_title : Option String
  redirect_qid : Option String
  target_namespace : Option Int
  target_title : Option String
  target_fragment : Option String
  target_interwiki : Option String
  target_id : Option Nat
  target_qid : Option String
  s2r_sitelink : Option String
  s2r_name : Option String
  s2r_badge : Option String
  s2r_qid : Option String
  i2r_sitelink : Option String
  i2r_name : Option String
  i2r_badge : Option String
  i2r_qid : Option String
deriving Repr, DecidableEq

/-- A pandas DataFrame: its column-name list plus its typed rows. The
column list is carried explicitly because the source takes care to rebuild
it for empty query results. -/
structure DataFrame (ρ : Type) where
  cols : List String
  rows : List ρ
deriving Repr, DecidableEq

/-- Column set of `query_redirect_pages_linked_to_wikidata_item`, rebuilt
explicitly by the source when the replica query returns no rows. -/
def redirectColumns : List String :=
  ["redirect_id", "redirect_namespace", "redirect_title", "redirect_qid",
   "target_namespace", "target_title", "target_fragment", "target_interwiki",
   "target_id", "target_qid"]

/-- `query_redirect_pages_linked_to_wikidata_item` from the source, as a
function of the replica query result: the column set is the fixed
`redirectColumns` whether or not the result is empty (the typed rows carry
the same columns; the explicit list models the pandas column index). -/
def query_redirect_pages_linked_to_wikidata_item (result : List RedirectRow) :
    DataFrame RedirectRow :=
  ⟨redirectColumns, result⟩

/-- The Wikidata entity-URL prepended to item ids in WDQS results. -/
def wdEntityUrl : String := "http://www.wikidata.org/entity/"

/-- `query_redirect_badges` from the source, as a function of the WDQS
query result: the column set is rebuilt when the result is empty, `qid` is
the `item` URL with the entity base sliced off, `badge` likewise sliced,
and the `item` column dropped. -/
def query_redirect_badges (result : List RawBadgeRow) : DataFrame BadgeRow :=
  ⟨["sitelink", "name", "badge", "qid"],
   result.map (fun r =>
     ⟨r.sitelink, r.name, r.badge.drop wdEntityUrl.length, r.item.drop wdEntityUrl.length⟩)⟩

/-- Full outer merge in the sense of `pandas.DataFrame.merge(how='outer')`
on a left key (nullable: a null key matches nothing) against a right key:
every matching (left, right) pair produces a row, every unmatched left row
produces a row with the right side null, and every unmatched right row
produces a row with the left side null. -/
def outerMerge {α β γ : Type} (keyL : α → Option String) (keyR : β → String)
    (mk : Option α → Option β → γ) (ls : List α) (rs : List β) : List γ :=
  (ls.flatMap (fun l =>
    if (rs.filter (fun r => keyL l == some (keyR r))).isEmpty then [mk (some l) none]
    else (rs.filter (fun r => keyL l == some (keyR r))).map (fun r => mk (some l) (some r)))) ++
  ((rs.filter (fun r => ls.all (fun l => ! (keyL l == some (keyR r))))).map
    (fun r => mk none (some r)))

/-- A master row with every field null. -/
def emptyMasterRow : MasterRow :=
  ⟨none, none, none, none, none, none, none, none, none,
   none, none, none, none, none, none, none, none, none⟩

/-- Row constructor for the first merge of `make_master_df` (redirect rows
against S2R badge rows, renamed to the `s2r_*` columns); the `i2r_*`
fields are not yet present (null). -/
def mkS2rRow : Option RedirectRow → Option BadgeRow → MasterRow
  | some l, ob =>
    { emptyMasterRow with
      redirect_id := some l.redirect_id,
      redirect_namespace := some l.redirect_namespace,
      redirect_title := some l.redirect_title,
      redirect_qid := some l.redirect_qid,
      target_namespace := l.target_namespace,
      target_title := l.target_title,
      target_fragment := l.target_fragment,
      target_interwiki := l.target_interwiki,
      target_id := l.target_id,
      target_qid := l.target_qid,
      s2r_sitelink := ob.map BadgeRow.sitelink,
      s2r_name := ob.map BadgeRow.name,
      s2r_badge := ob.map BadgeRow.badge,
      s2r_qid := ob.map BadgeRow.qid }
  | none, ob =>
    { emptyMasterRow with
      s2r_sitelink := ob.map BadgeRow.sitelink,
      s2r_name := ob.map BadgeRow.name,
      s2r_badge := ob.map BadgeRow.badge,
      s2r_qid := ob.map BadgeRow.qid }

/-- Row constructor for the second merge of `make_master_df` (the first
merge's rows against I2R badge rows, renamed to the `i2r_*` columns). -/
def mkI2rRow : Option MasterRow → Option BadgeRow → MasterRow
  | some m, ob =>
    { m with
      i2r_sitelink := ob.map BadgeRow.sitelink,
      i2r_name := ob.map BadgeRow.name,
      i2r_badge := ob.map BadgeRow.badge,
      i2r_qid := ob.map BadgeRow.qid }
  | none, ob =>
    { emptyMasterRow with
      i2r_sitelink := ob.map BadgeRow.sitelink,
      i2r_name := ob.map BadgeRow.name,
      i2r_badge := ob.map BadgeRow.badge,
      i2r_qid := ob.map BadgeRow.qid }

/-- Column rename of the first merge of `make_master_df`: the badge
columns get the `s2r_` names; redirect columns are unaffected. -/
def s2rRename (c : String) : String :=
  if c = "qid" then "s2r_qid"
  else if c = "sitelink" then "s2r_sitelink"
  else if c = "name" then "s2r_name"
  else if c = "badge" then "s2r_badge"
  else c

/-- Column rename of the second merge of `make_master_df`: the badge
columns get the `i2r_` names. -/
def i2rRename (c : String) : String :=
  if c = "qid" then "i2r_qid"
  else if c = "sitelink" then "i2r_sitelink"
  else if c = "name" then "i2r_name"
  else if c = "badge" then "i2r_badge"
  else c

/-- `make_master_df` from the source: outer-merge the redirect rows with
the badge rows filtered to the S2R badge on `redirect_qid = qid` (renaming
the badge columns to `s2r_*`), then outer-merge the result with the badge
rows filtered to the I2R badge (renaming to `i2r_*`). Rows coming only
from a badge side have null redirect fields and a null merge key, so they
never match in the second merge. -/
def make_master_df (redirect_items : DataFrame RedirectRow) (current_badges : DataFrame BadgeRow) :
    DataFrame MasterRow :=
  let s2r := current_badges.rows.filter (fun b => b.badge == QID_S2R)
  let mid := outerMerge (fun l => some l.redirect_qid) BadgeRow.qid mkS2rRow
    redirect_items.rows s2r
  let midCols := (redirect_items.cols ++ current_badges.cols).map s2rRename
  let i2r := current_badges.rows.filter (fun b => b.badge == QID_I2R)
  ⟨(midCols ++ current_badges.cols).map i2rRename,
   outerMerge MasterRow.redirect_qid BadgeRow.qid mkI2rRow mid i2r⟩

/-- The full documented column set of the master dataframe. -/
def masterColumns : List String :=
  ["redirect_id", "redirect_namespace", "redirect_title", "redirect_qid",
   "target_namespace", "target_title", "target_fragment", "target_interwiki",
   "target_id", "target_qid",
   "s2r_sitelink", "s2r_name", "s2r_badge", "s2r_qid",
   "i2r_sitelink", "i2r_name", "i2r_badge", "i2r_qid"]

/-- `filter_all_redirects`: rows whose `redirect_id` is non-null. -/
def filter_all_redirects (df : List MasterRow) : List MasterRow :=
  df.filter (fun r => r.redirect_id.isSome)

/-- `filter_redirects_with_inexistent_target`: redirect rows whose target
page does not exist. -/
def filter_redirects_with_inexistent_target (df : List MasterRow) : List MasterRow :=
  df.filter (fun r => r.redirect_id.isSome && r.target_id.isNone)

/-- `filter_redirects_with_unconnected_target`: redirect rows whose target
page exists but is not connected to an item. -/
def filter_redirects_with_unconnected_target (df : List MasterRow) : List MasterRow :=
  df.filter (fun r => r.redirect_id.isSome && r.target_id.isSome && r.target_qid.isNone)

/-- `filter_redirects_with_any_badge`: redirect rows carrying at least one
of the two badges. -/
def filter_redirects_with_any_badge (df : List MasterRow) : List MasterRow :=
  df.filter (fun r => r.redirect_id.isSome && (r.s2r_badge.isSome || r.i2r_badge.isSome))

/-- `filter_redirects_with_s2r_badge`: redirect rows carrying the S2R badge. -/
def filter_redirects_with_s2r_badge (df : List MasterRow) : List MasterRow :=
  df.filter (fun r => r.redirect_id.isSome && r.s2r_badge.isSome)

/-- `filter_redirects_with_i2r_badge`: redirect rows carrying the I2R badge. -/
def filter_redirects_with_i2r_badge (df : List MasterRow) : List MasterRow :=
  df.filter (fun r => r.redirect_id.isSome && r.i2r_badge.isSome)

/-- `filter_redirects_without_badge`: redirect rows carrying neither badge. -/
def filter_redirects_without_badge (df : List MasterRow) : List MasterRow :=
  df.filter (fun r => r.redirect_id.isSome && r.s2r_badge.isNone && r.i2r_badge.isNone)

/-- `filter_redirects_with_both_badges`: redirect rows carrying both badges. -/
def filter_redirects_with_both_badges (df : List MasterRow) : List MasterRow :=
  df.filter (fun r => r.redirect_id.isSome && r.s2r_badge.isSome && r.i2r_badge.isSome)

/-- `filter_non_redirects_with_badges`: rows whose `redirect_id` is null.
The source filters on that condition alone. -/
def filter_non_redirects_with_badges (df : List MasterRow) : List MasterRow :=
  df.filter (fun r => r.redirect_id.isNone)

/-- The per-record loop shared by the bucket processors: a recoverable
record result (`cont`) moves on to the next record; a caught fatal
(`stop`, the source's `return`) or an uncaught exception (`crash`) ends
the loop, leaving the remaining records unprocessed. -/
def runBucket (step : MasterRow → RecResult) : List MasterRow → List (MasterRow × RecResult)
  | [] => []
  | r :: rs =>
    let res := step r
    match res.ctl with
    | .cont => (r, res) :: runBucket step rs
    | .stop => [(r, res)]
    | .crash => [(r, res)]

/-- `process_redirects_with_inexistent_target` from the source: iterate
the rows matching `redirect_id` non-null, `target_id` null and
`target_interwiki` null (a restriction narrower than the bucket filter,
which does not test `target_interwiki`), resolving each row's item by its
`redirect_qid` against the remote world `env`. -/
def process_redirects_with_inexistent_target (simulate : Bool) (dbname : String)
    (env : String → Remote) (df : List MasterRow) : List (MasterRow × RecResult) :=
  runBucket
    (fun row => process_inexistent_record simulate dbname (env (row.redirect_qid.getD "")))
    (df.filter (fun r => r.redirect_id.isSome && r.target_id.isNone && r.target_interwiki.isNone))

/-- `process_redirects_without_badge` from the source: iterate the rows
matching `redirect_id`, `target_id` and `target_qid` non-null with both
badges null. -/
def process_redirects_without_badge (simulate : Bool) (dbname : String)
    (env : String → Remote) (df : List MasterRow) : List (MasterRow × RecResult) :=
  runBucket
    (fun row => process_without_badge_record simulate dbname (env (row.redirect_qid.getD "")))
    (df.filter (fun r => r.redirect_id.isSome && r.target_id.isSome && r.target_qid.isSome &&
      r.s2r_badge.isNone && r.i2r_badge.isNone))

/-- `process_redirects_with_both_badges` from the source: iterate the rows
matching `redirect_id`, `target_id` and `target_qid` non-null with both
badges non-null. -/
def process_redirects_with_both_badges (simulate : Bool) (dbname : String)
    (env : String → Remote) (df : List MasterRow) : List (MasterRow × RecResult) :=
  runBucket
    (fun row => process_both_badges_record simulate dbname (env (row.redirect_qid.getD "")))
    (df.filter (fun r => r.redirect_id.isSome && r.target_id.isSome && r.target_qid.isSome &&
      r.s2r_badge.isSome && r.i2r_badge.isSome))

/-- Whether a bucket's loop ended with a caught fatal or an uncaught
exception (so the rest of that bucket function was skipped). -/
def bucketStopped (out : List (MasterRow × RecResult)) : Bool :=
  out.any (fun p => p.2.ctl == LoopCtl.stop || p.2.ctl == LoopCtl.crash)

/-- Whether a bucket's loop ended with an uncaught exception that escaped
the bucket function. -/
def crashedOut (out : List (MasterRow × RecResult)) : Bool :=
  out.any (fun p => p.2.ctl == LoopCtl.crash)

/-- `process_non_redirects_with_badges` from the source: two sequential
loops inside one bucket function (on the S2R badge keyed by `s2r_qid`,
then on the I2R badge keyed by `i2r_qid`). A fatal in the first loop
returns from the whole function, skipping the second loop. -/
def process_non_redirects_with_badges (simulate : Bool) (dbname : String)
    (env : String → Remote) (df : List MasterRow) : List (MasterRow × RecResult) :=
  let o1 := runBucket
    (fun row => process_non_redirect_record simulate dbname QID_S2R (env (row.s2r_qid.getD "")))
    (df.filter (fun r => r.redirect_id.isNone && r.s2r_badge.isSome))
  if bucketStopped o1 then o1
  else o1 ++ runBucket
    (fun row => process_non_redirect_record simulate dbname QID_I2R (env (row.i2r_qid.getD "")))
    (df.filter (fun r => r.redirect_id.isNone && r.i2r_badge.isSome))

/-- Outputs of the bucket jobs a project run actually executed, in the
source's order, plus whether an uncaught exception ended the run. -/
structure ProjectResult where
  buckets : List (List (MasterRow × RecResult))
  crashed : Bool
deriving Repr, DecidableEq

/-- The mutation-bucket sequence of `process_project` (lines 995-1017 of
the source, with all processing toggles at their committed `True` value):
the four bucket jobs run one after the other on the same master snapshot.
A caught fatal inside one bucket does not affect the following buckets; an
uncaught exception propagates out of `process_project`, skipping the rest. -/
def process_project (simulate : Bool) (dbname : String)
    (env : String → Remote) (df : List MasterRow) : ProjectResult :=
  let o1 := process_redirects_without_badge simulate dbname env
    (filter_redirects_without_badge df)
  if crashedOut o1 then ⟨[o1], true⟩ else
  let o2 := process_redirects_with_both_badges simulate dbname env
    (filter_redirects_with_both_badges df)
  if crashedOut o2 then ⟨[o1, o2], true⟩ else
  let o3 := process_non_redirects_with_badges simulate dbname env
    (filter_non_redirects_with_badges df)
  if crashedOut o3 then ⟨[o1, o2, o3], true⟩ else
  let o4 := process_redirects_with_inexistent_target simulate dbname env
    (filter_redirects_with_inexistent_target df)
  ⟨[o1, o2, o3, o4], crashedOut o4⟩

/-- The project loop of `main`: one project after the other; an uncaught
exception in one project ends the whole run, anything else (including a
per-bucket fatal) lets the next project proceed. -/
def runProjects {π : Type} (f : π → ProjectResult) : List π → List ProjectResult
  | [] => []
  | p :: ps =>
    let r := f p
    if r.crashed then [r] else r :: runProjects f ps

/-- The per-project statistic counters assembled by `process_project`,
field names as in the source's `project_stats` payload. -/
structure ProjectStats where
  cnt_all_redirects : Nat
  cnt_redirects_with_any_badge : Nat
  cnt_redirects_with_s2r_badge : Nat
  cnt_redirects_with_i2r_badge : Nat
  cnt_redirects_without_badge : Nat
  cnt_redirects_with_both_badges : Nat
  cnt_non_redirects_with_badges : Nat
  cnt_redirects_with_inexistent_target : Nat
  cnt_redirects_with_unconnected_target : Nat
deriving Repr, DecidableEq

/-- The `project_stats` payload of `process_project`: the row count of
each bucket filter applied to the master snapshot. -/
def project_stats (df : List MasterRow) : ProjectStats :=
  ⟨(filter_all_redirects df).length,
   (filter_redirects_with_any_badge df).length,
   (filter_redirects_with_s2r_badge df).length,
   (filter_redirects_with_i2r_badge df).length,
   (filter_redirects_without_badge df).length,
   (filter_redirects_with_both_badges df).length,
   (filter_non_redirects_with_badges df).length,
   (filter_redirects_with_inexistent_target df).length,
   (filter_redirects_with_unconnected_target df).length⟩

/-- `log_project_stats` from the source: the tab-separated statistics line
appended to `project_stats.tsv`, in the source's write order. -/
def log_project_stats (dbname : String) (p : ProjectStats) : String :=
  dbname ++ "\t" ++ toString p.cnt_all_redirects ++ "\t" ++
  toString p.cnt_redirects_with_any_badge ++ "\t" ++
  toString p.cnt_redirects_with_s2r_badge ++ "\t" ++
  toString p.cnt_redirects_with_i2r_badge ++ "\t" ++
  toString p.cnt_redirects_without_badge ++ "\t" ++
  toString p.cnt_redirects_with_both_badges ++ "\t" ++
  toString p.cnt_non_redirects_with_badges ++ "\t" ++
  toString p.cnt_redirects_with_inexistent_target ++ "\t" ++
  toString p.cnt_redirects_with_unconnected_target ++ "\n"

/-- The nine counters in the order the source writes them. -/
def statsLineCounts (p : ProjectStats) : List Nat :=
  [p.cnt_all_redirects,
   p.cnt_redirects_with_any_badge,
   p.cnt_redirects_with_s2r_badge,
   p.cnt_redirects_with_i2r_badge,
   p.cnt_redirects_without_badge,
   p.cnt_redirects_with_both_badges,
   p.cnt_non_redirects_with_badges,
   p.cnt_redirects_with_inexistent_target,
   p.cnt_redirects_with_unconnected_target]

/-- Modelled from the spec's words for comparison with
`log_project_stats`: a statistics line whose nine counts follow the
bucket-list order of spec section 4.2 (all_redirects, inexistent_target,
unconnected_target, any_tag, kind_a_only, kind_b_only, untagged,
both_tags, mistagged_non_redirect). -/
def spec_claimed_stats_line (dbname : String) (p : ProjectStats) : String :=
  dbname ++ "\t" ++ toString p.cnt_all_redirects ++ "\t" ++
  toString p.cnt_redirects_with_inexistent_target ++ "\t" ++
  toString p.cnt_redirects_with_unconnected_target ++ "\t" ++
  toString p.cnt_redirects_with_any_badge ++ "\t" ++
  toString p.cnt_redirects_with_s2r_badge ++ "\t" ++
  toString p.cnt_redirects_with_i2r_badge ++ "\t" ++
  toString p.cnt_redirects_without_badge ++ "\t" ++
  toString p.cnt_redirects_with_both_badges ++ "\t" ++
  toString p.cnt_non_redirects_with_badges ++ "\n"

/-- Local and canonical name of one namespace, as returned per namespace
id by `query_namespaces_from_api`. -/
structure NsNames where
  local_name : String
  canonical : String
deriving Repr, DecidableEq

/-- The namespace display parts computed per record inside
`write_unconnected_redirect_target_report` (lines 859-871 of the source):
namespace 0 yields an empty prefix and an empty parenthetical part;
any other namespace yields the local name followed by a colon, and the
canonical name in parentheses (preceded by a space), both defaulting to
the empty string when the namespace id is unknown. -/
def resolveNamespaceParts (namespaces : Int → Option NsNames) (ns : Int) : String × String :=
  if ns = 0 then ("", "")
  else
    (((namespaces ns).map NsNames.local_name).getD "" ++ ":",
     " (" ++ ((namespaces ns).map NsNames.canonical).getD "" ++ ")")

/-- One rendered link cell of the unconnected-target report (the last two
lines the source writes per record): wiki-link markup built from the
interwiki prefix, the namespace parts of `resolveNamespaceParts`, and the
title with underscores rendered as spaces. -/
def renderLinkCell (pfx : String) (nsParts : String × String) (title : String) : String :=
  "| [[" ++ pfx ++ nsParts.1 ++ title ++ "|" ++ nsParts.1 ++
    (title.replace "_" " ") ++ "]]" ++ nsParts.2 ++ "\n"

/-- A constant remote world: every item id resolves to the same snapshot. -/
def envConst (st : Remote) : String → Remote := fun _ => st

/-- Sample sitelink without badges. -/
def slPlain : SiteLink := ⟨"Some_page", []⟩

/-- Sample remote snapshot of an inexistent-target record that passes all
re-verification checks, with a short (50-byte) redirect page. -/
def remoteShort : Remote :=
  ⟨false, false, "Q100", some slPlain, true, true, false, false, false, false, 50⟩

/-- Sample remote snapshot of an inexistent-target record that passes all
re-verification checks, with a long (150-byte) redirect page. -/
def remoteLong : Remote :=
  ⟨false, false, "Q100", some slPlain, true, true, false, false, false, false, 150⟩

/-- Sample remote snapshot whose item page does not exist. -/
def remoteGone : Remote :=
  ⟨true, false, "Q100", none, false, false, false, false, false, false, 0⟩

/-- Sample remote snapshot of a both-badges record that passes all
re-verification checks but whose sitelink no longer carries the I2R badge. -/
def remoteBothNoI2r : Remote :=
  ⟨false, false, "Q100", some ⟨"Some_page", [QID_S2R]⟩, true, true, false, false,
   true, true, 50⟩

/-- Sample master row of the inexistent-target bucket (local target,
no interwiki). -/
def rowInexistent : MasterRow :=
  { emptyMasterRow with
    redirect_id := some "123", redirect_namespace := some 0,
    redirect_title := some "Some_page", redirect_qid := some "Q100" }

/-- Sample master row of the both-badges bucket. -/
def rowBoth : MasterRow :=
  { emptyMasterRow with
    redirect_id := some "123", redirect_namespace := some 0,
    redirect_title := some "Some_page", redirect_qid := some "Q100",
    target_id := some 7, target_qid := some "Q7",
    s2r_badge := some QID_S2R, s2r_qid := some "Q100",
    i2r_badge := some QID_I2R, i2r_qid := some "Q100" }

/-- Sample replica row for the joiner proofs. -/
def sampleRedirectRow : RedirectRow :=
  ⟨"123", 0, "Some_page", "Q100", some 0, some "Target_page", none, none, none, none⟩

/-- Sample raw WDQS badge row carrying the S2R badge for item Q5. -/
def sampleRawBadgeRow : RawBadgeRow :=
  ⟨"http://www.wikidata.org/entity/Q5", "https://en.wikipedia.org/wiki/X", "X",
   "http://www.wikidata.org/entity/Q70893996"⟩

/-- Sample namespace table whose namespace 1 has identical local and
canonical names. -/
def nsMapSame : Int → Option NsNames :=
  fun n => if n = 1 then some ⟨"Talk", "Talk"⟩ else none

/-- Sample statistics payload with nine pairwise distinct counts. -/
def statsDistinct : ProjectStats := ⟨1, 2, 3, 4, 5, 6, 7, 8, 9⟩

/-- Claim C1: for an inexistent-target record passing all re-verification
checks (item resolvable, sitelink present, page still a redirect, target
still non-existent), the pipeline removes the sitelink iff the page
content length is at most `REDIRECT_LENGTH_CUTOFF`, otherwise it attempts
the S2R badge grant, and exactly one of the two mutations is attempted. -/
theorem C1_inexistent_cutoff_decision (simulate : Bool) (dbname : String) (st : Remote)
    (sl : SiteLink)
    (h1 : st.itemMissing = false) (h2 : st.itemIsRedirect = false)
    (h3 : st.sitelink = some sl) (h4 : st.pageIsRedirect = true)
    (h5 : st.circular = false) (h6 : st.interwiki = false)
    (h7 : st.targetExists = false) (h8 : st.pageExists = true) :
    ((process_inexistent_record simulate dbname st).calls = [CallKind.removeLink]
        ↔ st.pageLen ≤ REDIRECT_LENGTH_CUTOFF)
    ∧ (REDIRECT_LENGTH_CUTOFF < st.pageLen →
        (process_inexistent_record simulate dbname st).calls = [CallKind.grantTag])
    ∧ (process_inexistent_record simulate dbname st).calls.length = 1 := by
  unfold process_inexistent_record
  simp only [h1, h2, is_redirect_page, h3, h4, target_exists, h5, h6, h7,
    get_page_len, h8, REDIRECT_LENGTH_CUTOFF, Bool.false_eq_true, if_false, not_true,
    ite_false, Bool.not_true]
  by_cases hlen : st.pageLen > 100
  · simp only [hlen, if_true, ite_true]
    cases houtcome : (add_badge simulate st.itemTitle dbname (some sl) QID_S2R
        (some [QID_I2R])).outcome <;>
      simp [houtcome] <;> omega
  · simp only [hlen, if_false, ite_false]
    simp
    omega

/-- Witness for C1: a 50-byte redirect leads to sitelink removal, a
150-byte redirect leads to the badge-grant attempt. -/
theorem C1_inexistent_cutoff_decision_witness :
    (process_inexistent_record false "enwiki" remoteShort).calls = [CallKind.removeLink]
    ∧ (process_inexistent_record false "enwiki" remoteLong).calls = [CallKind.grantTag] := by
  constructor
  · exact (C1_inexistent_cutoff_decision false "enwiki" remoteShort slPlain
      rfl rfl rfl rfl rfl rfl rfl rfl).1.mpr (by decide)
  · exact (C1_inexistent_cutoff_decision false "enwiki" remoteLong slPlain
      rfl rfl rfl rfl rfl rfl rfl rfl).2.1 (by decide)

/-- Every record the bucket loop processed came from the row list it was
given. -/
theorem runBucket_fst_mem (step : MasterRow → RecResult) (l : List MasterRow)
    (p : MasterRow × RecResult) (hp : p ∈ runBucket step l) : p.1 ∈ l := by
  induction l with
  | nil => simp [runBucket] at hp
  | cons r rs ih =>
    unfold runBucket at hp
    cases hctl : (step r).ctl <;> simp only [hctl] at hp
    · rcases List.mem_cons.1 hp with h | h
      · exact h ▸ List.mem_cons_self r rs
      · exact List.mem_cons_of_mem _ (ih h)
    · rcases List.mem_singleton.1 hp with h
      exact h ▸ List.mem_cons_self r rs
    · rcases List.mem_singleton.1 hp with h
      exact h ▸ List.mem_cons_self r rs

/-- Claim C9: the inexistent-target processing loop filters on
`target_interwiki` being null in addition to the bucket predicate, so a
record with a non-null `target_interwiki` is never iterated and gets no
mutation at all. -/
theorem C9_inexistent_interwiki_excluded (simulate : Bool) (dbname : String)
    (env : String → Remote) (df : List MasterRow) (p : MasterRow × RecResult)
    (hp : p ∈ process_redirects_with_inexistent_target simulate dbname env df) :
    p.1.target_interwiki = none := by
  unfold process_redirects_with_inexistent_target at hp
  have hmem := runBucket_fst_mem _ _ _ hp
  have h := (List.mem_filter.1 hmem).2
  simp only [Bool.and_eq_true, Option.isNone_iff_eq_none] at h
  exact h.2

/-- Witness for C9: a processed record of the inexistent-target loop has a
null `target_interwiki`. -/
theorem C9_inexistent_interwiki_excluded_witness : rowInexistent.target_interwiki = none :=
  C9_inexistent_interwiki_excluded false "enwiki" (envConst remoteGone) [rowInexistent]
    (rowInexistent, ⟨[], [], LoopCtl.cont⟩) (by decide)

/-- Claim C10: the both-badges processing filter keeps only rows with
`target_id` and `target_qid` non-null; the S2R revocation is attempted
only when the sitelink still carries the I2R badge at re-check time; and a
record passing every earlier re-check whose sitelink lacks the I2R badge
is skipped with zero mutation calls. -/
theorem C10_both_badges_recheck (simulate : Bool) (dbname : String) (env : String → Remote)
    (df : List MasterRow) :
    (∀ p ∈ process_redirects_with_both_badges simulate dbname env df,
        p.1.target_id.isSome = true ∧ p.1.target_qid.isSome = true)
    ∧ (∀ (st : Remote) (sl : SiteLink), st.sitelink = some sl →
        CallKind.revokeTag ∈ (process_both_badges_record simulate dbname st).calls →
        sl.badges.contains QID_I2R = true)
    ∧ (∀ (st : Remote) (sl : SiteLink),
        st.itemMissing = false → st.itemIsRedirect = false →
        st.sitelink = some sl → st.pageIsRedirect = true →
        st.circular = false → st.interwiki = false →
        st.targetExists = true → st.targetConnected = true →
        sl.badges.contains QID_I2R = false →
        (process_both_badges_record simulate dbname st).calls = []
        ∧ (process_both_badges_record simulate dbname st).ctl = LoopCtl.cont) := by
  have hvalid : QID_I2R = QID_S2R ∨ QID_I2R = QID_I2R := Or.inr rfl
  refine ⟨?_, ?_, ?_⟩
  · intro p hp
    unfold process_redirects_with_both_badges at hp
    have hmem := runBucket_fst_mem _ _ _ hp
    have h := (List.mem_filter.1 hmem).2
    simp only [Bool.and_eq_true] at h
    exact ⟨h.1.1.1.2, h.1.1.2⟩
  · intro st sl hsl hcall
    obtain ⟨im, ir, it, slk, pir, pe, ci, iw, te, tc, pl⟩ := st
    simp only at hsl
    subst hsl
    cases hc : sl.badges.contains QID_I2R
    · exfalso
      cases im <;> cases ir <;> cases pir <;> cases ci <;> cases iw <;> cases te <;> cases tc <;>
        simp_all [process_both_badges_record, is_redirect_page, target_exists,
          target_is_connected, has_badge, hvalid]
    · rfl
  · intro st sl h1 h2 hsl h4 h5 h6 h7 h8 hc
    have hc2 : decide (QID_I2R ∈ sl.badges) = false := by simpa using hc
    unfold process_both_badges_record
    simp [h1, h2, is_redirect_page, hsl, h4, target_exists, h5, h6, h7,
      target_is_connected, h8, has_badge, hvalid, hc2]

/-- Witness for C10: a both-badges record passing every earlier re-check
whose sitelink lacks the I2R badge is skipped with zero mutations; a
processed row of the bucket has its target present and connected in the
snapshot. -/
theorem C10_both_badges_recheck_witness :
    ((process_both_badges_record false "enwiki" remoteBothNoI2r).calls = []
      ∧ (process_both_badges_record false "enwiki" remoteBothNoI2r).ctl = LoopCtl.cont)
    ∧ (rowBoth.target_id.isSome = true ∧ rowBoth.target_qid.isSome = true) := by
  constructor
  · exact (C10_both_badges_recheck false "enwiki" (envConst remoteGone) [rowBoth]).2.2
      remoteBothNoI2r ⟨"Some_page", [QID_S2R]⟩ rfl rfl rfl rfl rfl rfl rfl rfl (by decide)
  · exact (C10_both_badges_recheck false "enwiki" (envConst remoteGone) [rowBoth]).1
      (rowBoth, ⟨[], [], LoopCtl.cont⟩) (by decide)

/-- Claim C3: `add_badge` raises a fatal error iff the badge kind is
invalid, and a recoverable skip when the badge is already set or an
incompatible badge is present; `remove_badge` raises a fatal error iff the
badge kind is invalid, and a recoverable skip when the badge is absent. -/
theorem C3_mutation_error_taxonomy (simulate : Bool) (itemTitle dbname : String)
    (sl : SiteLink) (qid_badge : String) (has_none_of_badges : Option (List String)) :
    ((add_badge simulate itemTitle dbname (some sl) qid_badge has_none_of_badges).outcome.isFatal
        = true ↔ ¬ (qid_badge = QID_S2R ∨ qid_badge = QID_I2R))
    ∧ ((qid_badge = QID_S2R ∨ qid_badge = QID_I2R) →
        sl.badges.contains qid_badge = true →
        (add_badge simulate itemTitle dbname (some sl) qid_badge
          has_none_of_badges).outcome.isSkip = true)
    ∧ (∀ bs : List String, (qid_badge = QID_S2R ∨ qid_badge = QID_I2R) →
        sl.badges.contains qid_badge = false →
        sitelink_has_any_of_badges sl bs = true →
        (add_badge simulate itemTitle dbname (some sl) qid_badge (some bs)).outcome.isSkip = true)
    ∧ ((remove_badge simulate itemTitle dbname (some sl) qid_badge).outcome.isFatal = true
        ↔ ¬ (qid_badge = QID_S2R ∨ qid_badge = QID_I2R))
    ∧ ((qid_badge = QID_S2R ∨ qid_badge = QID_I2R) →
        sl.badges.contains qid_badge = false →
        (remove_badge simulate itemTitle dbname (some sl) qid_badge).outcome.isSkip = true) := by
  refine ⟨?_, ?_, ?_, ?_, ?_⟩
  · constructor
    · intro hfat
      by_contra hv
      revert hfat
      simp only [add_badge, hv, not_true, if_false, Bool.not_eq_true]
      cases hc1 : sl.badges.contains qid_badge
      · cases hc2 : (match has_none_of_badges with
          | some bs => sitelink_has_any_of_badges sl bs
          | none => false) <;>
          simp [hc1, hc2, Outcome.isFatal]
      · simp [hc1, Outcome.isFatal]
    · intro hv
      simp [add_badge, hv, Outcome.isFatal]
  · intro hv hcont
    have hcont2 : decide (qid_badge ∈ sl.badges) = true := by simpa using hcont
    simp [add_badge, hv, hcont2, Outcome.isSkip]
  · intro bs hv hcont hincomp
    have hcont2 : decide (qid_badge ∈ sl.badges) = false := by simpa using hcont
    simp [add_badge, hv, hcont2, hincomp, Outcome.isSkip]
  · constructor
    · intro hfat
      by_contra hv
      revert hfat
      simp only [remove_badge, hv, not_true, if_false, Bool.not_eq_true]
      by_cases hall : ∀ a ∈ sl.badges, ¬ a = qid_badge
      · simp [eq_true hall, Outcome.isFatal]
      · simp [eq_false hall, Outcome.isFatal]
    · intro hv
      simp [remove_badge, hv, Outcome.isFatal]
  · intro hv hcont
    have hnotmem : qid_badge ∉ sl.badges := by simpa using hcont
    have hall : ∀ b ∈ sl.badges, ¬ b = qid_badge := by
      intro b hb he
      exact hnotmem (he ▸ hb)
    simp [remove_badge, hv, Outcome.isSkip, eq_true hall]

/-- Witness for C3: each taxonomy case at a concrete input — an invalid
badge kind is fatal for grant and revoke, granting an already-set badge
skips, granting against the incompatible badge skips, revoking an absent
badge skips. -/
theorem C3_mutation_error_taxonomy_witness :
    (add_badge false "Q100" "enwiki" (some slPlain) "Q42" none).outcome.isFatal = true
    ∧ (add_badge false "Q100" "enwiki" (some ⟨"T", [QID_S2R]⟩) QID_S2R
        (some [QID_I2R])).outcome.isSkip = true
    ∧ (add_badge false "Q100" "enwiki" (some ⟨"T", [QID_I2R]⟩) QID_S2R
        (some [QID_I2R])).outcome.isSkip = true
    ∧ (remove_badge false "Q100" "enwiki" (some slPlain) "Q42").outcome.isFatal = true
    ∧ (remove_badge false "Q100" "enwiki" (some slPlain) QID_S2R).outcome.isSkip = true := by
  refine ⟨?_, ?_, ?_, ?_, ?_⟩
  · exact (C3_mutation_error_taxonomy false "Q100" "enwiki" slPlain "Q42" none).1.mpr (by decide)
  · exact (C3_mutation_error_taxonomy false "Q100" "enwiki" ⟨"T", [QID_S2R]⟩ QID_S2R
      (some [QID_I2R])).2.1 (Or.inl rfl) (by decide)
  · exact (C3_mutation_error_taxonomy false "Q100" "enwiki" ⟨"T", [QID_I2R]⟩ QID_S2R
      (some [QID_I2R])).2.2.1 [QID_I2R] (Or.inl rfl) (by decide) (by decide)
  · exact (C3_mutation_error_taxonomy false "Q100" "enwiki" slPlain "Q42" none).2.2.2.1.mpr
      (by decide)
  · exact (C3_mutation_error_taxonomy false "Q100" "enwiki" slPlain QID_S2R none).2.2.2.2
      (Or.inl rfl) (by decide)

/-- Claim C5: with the dry-run flag set, `add_badge`, `remove_badge` and
`remove_sitelink` perform no remote write, while their classified outcome
and their success log lines match the real run on the same inputs (the
flag is consulted only around the write itself, after every precondition
check). -/
theorem C5_dry_run_frame (itemTitle dbname : String) (sitelink : Option SiteLink)
    (qid_badge : String) (has_none_of_badges : Option (List String)) :
    add_badge true itemTitle dbname sitelink qid_badge has_none_of_badges
      = { add_badge false itemTitle dbname sitelink qid_badge has_none_of_badges with
          writes := [] }
    ∧ remove_badge true itemTitle dbname sitelink qid_badge
      = { remove_badge false itemTitle dbname sitelink qid_badge with writes := [] }
    ∧ remove_sitelink true itemTitle dbname
      = { remove_sitelink false itemTitle dbname with writes := [] } := by
  refine ⟨?_, ?_, rfl⟩
  · unfold add_badge
    by_cases hv : qid_badge = QID_S2R ∨ qid_badge = QID_I2R
    · cases sitelink with
      | none => simp [hv]
      | some sl =>
        by_cases hm : qid_badge ∈ sl.badges <;>
          cases hc2 : (match has_none_of_badges with
            | some bs => sitelink_has_any_of_badges sl bs
            | none => false) <;>
          simp [hv, hm, hc2]
    · simp [hv]
  · unfold remove_badge
    by_cases hv : qid_badge = QID_S2R ∨ qid_badge = QID_I2R
    · cases sitelink with
      | none => simp [hv]
      | some sl =>
        by_cases hall : ∀ a ∈ sl.badges, ¬ a = qid_badge
        · simp [hv, eq_true hall]
        · simp [hv, eq_false hall]
    · simp [hv]

/-- Claim C4: in a bucket loop a recoverable record outcome lets the loop
continue with the remaining records, while a caught fatal ends the bucket
(no remaining record processed) without counting as an uncaught crash; a
project whose bucket jobs do not crash runs all four bucket jobs on their
filters (so a fatal abort in one bucket leaves the others untouched); and
the project loop of `main` continues with the next projects whenever a
project did not crash. -/
theorem C4_error_propagation :
    (∀ (step : MasterRow → RecResult) (r : MasterRow) (rs : List MasterRow),
      ((step r).ctl = LoopCtl.cont →
        runBucket step (r :: rs) = (r, step r) :: runBucket step rs)
      ∧ ((step r).ctl = LoopCtl.stop →
        runBucket step (r :: rs) = [(r, step r)]
        ∧ crashedOut (runBucket step (r :: rs)) = false))
    ∧ (∀ (simulate : Bool) (dbname : String) (env : String → Remote) (df : List MasterRow),
      crashedOut (process_redirects_without_badge simulate dbname env
        (filter_redirects_without_badge df)) = false →
      crashedOut (process_redirects_with_both_badges simulate dbname env
        (filter_redirects_with_both_badges df)) = false →
      crashedOut (process_non_redirects_with_badges simulate dbname env
        (filter_non_redirects_with_badges df)) = false →
      (process_project simulate dbname env df).buckets =
        [process_redirects_without_badge simulate dbname env
          (filter_redirects_without_badge df),
         process_redirects_with_both_badges simulate dbname env
          (filter_redirects_with_both_badges df),
         process_non_redirects_with_badges simulate dbname env
          (filter_non_redirects_with_badges df),
         process_redirects_with_inexistent_target simulate dbname env
          (filter_redirects_with_inexistent_target df)])
    ∧ (∀ (π : Type) (f : π → ProjectResult) (p : π) (ps : List π),
      (f p).crashed = false → runProjects f (p :: ps) = f p :: runProjects f ps) := by
  refine ⟨?_, ?_, ?_⟩
  · intro step r rs
    constructor
    · intro hctl
      conv_lhs => rw [runBucket]
      simp only [hctl]
    · intro hctl
      have he : runBucket step (r :: rs) = [(r, step r)] := by
        conv_lhs => rw [runBucket]
        simp only [hctl]
      refine ⟨he, ?_⟩
      rw [he]
      simp [crashedOut, hctl]
  · intro simulate dbname env df h1 h2 h3
    unfold process_project
    simp only [h1, h2, h3, Bool.false_eq_true, if_false, ite_false]
  · intro π f p ps hcr
    conv_lhs => rw [runProjects]
    simp only [hcr, Bool.false_eq_true, if_false, ite_false]

/-- Witness for C4: a one-record bucket whose step reports a caught fatal
yields exactly that record's result and no crash; with an all-skipping
remote world the project run executes all four bucket jobs; and the
project loop proceeds past a non-crashed project. -/
theorem C4_error_propagation_witness :
    runBucket (fun _ => ⟨[], [], LoopCtl.stop⟩) [rowInexistent]
      = [(rowInexistent, ⟨[], [], LoopCtl.stop⟩)]
    ∧ (process_project false "enwiki" (envConst remoteGone) [rowInexistent]).buckets =
        [process_redirects_without_badge false "enwiki" (envConst remoteGone)
          (filter_redirects_without_badge [rowInexistent]),
         process_redirects_with_both_badges false "enwiki" (envConst remoteGone)
          (filter_redirects_with_both_badges [rowInexistent]),
         process_non_redirects_with_badges false "enwiki" (envConst remoteGone)
          (filter_non_redirects_with_badges [rowInexistent]),
         process_redirects_with_inexistent_target false "enwiki" (envConst remoteGone)
          (filter_redirects_with_inexistent_target [rowInexistent])]
    ∧ runProjects (fun _ => ProjectResult.mk [] false) [0, 1]
      = [ProjectResult.mk [] false, ProjectResult.mk [] false] := by
  refine ⟨?_, ?_, ?_⟩
  · exact ((C4_error_propagation.1 (fun _ => ⟨[], [], LoopCtl.stop⟩) rowInexistent []).2 rfl).1
  · exact C4_error_propagation.2.1 false "enwiki" (envConst remoteGone) [rowInexistent]
      (by decide) (by decide) (by decide)
  · have h := C4_error_propagation.2.2 Nat (fun _ => ProjectResult.mk [] false) 0 [1] rfl
    rw [h]
    have h2 := C4_error_propagation.2.2 Nat (fun _ => ProjectResult.mk [] false) 1 [] rfl
    rw [h2]
    rfl

/-- Every row of an outer merge is made from a left row (with or without a
matching right row) or from an unmatched right row. -/
theorem outerMerge_shape {α β γ : Type} (keyL : α → Option String) (keyR : β → String)
    (mk : Option α → Option β → γ) (ls : List α) (rs : List β) (y : γ)
    (hy : y ∈ outerMerge keyL keyR mk ls rs) :
    (∃ l ob, l ∈ ls ∧ y = mk (some l) ob) ∨ ∃ r, r ∈ rs ∧ y = mk none (some r) := by
  unfold outerMerge at hy
  rcases List.mem_append.1 hy with h | h
  · rcases List.mem_flatMap.1 h with ⟨l, hl, hyl⟩
    by_cases hms : ((rs.filter (fun r => keyL l == some (keyR r))).isEmpty) = true
    · rw [if_pos hms] at hyl
      exact Or.inl ⟨l, none, hl, List.mem_singleton.1 hyl⟩
    · rw [if_neg hms] at hyl
      rcases List.mem_map.1 hyl with ⟨r, _, hyr⟩
      exact Or.inl ⟨l, some r, hl, hyr.symm⟩
  · rcases List.mem_map.1 h with ⟨r, hr, hyr⟩
    exact Or.inr ⟨r, (List.mem_filter.1 hr).1, hyr.symm⟩

/-- An outer merge against an empty right relation keeps exactly the left
rows, with the right side null. -/
theorem outerMerge_nil_right {α β γ : Type} (keyL : α → Option String) (keyR : β → String)
    (mk : Option α → Option β → γ) (ls : List α) :
    outerMerge keyL keyR mk ls [] = ls.map (fun l => mk (some l) none) := by
  induction ls with
  | nil => rfl
  | cons a as ih =>
    simp only [outerMerge, List.filter_nil, List.isEmpty_nil, if_true, List.flatMap_cons,
      List.map_nil, List.append_nil, List.map_cons] at *
    rw [List.singleton_append, ih]

/-- Every master row has a source: a redirect row (non-null
`redirect_id`), an unmatched S2R badge row (non-null `s2r_badge`), or an
unmatched I2R badge row (non-null `i2r_badge`). -/
theorem master_row_member_shape (redirect_items : DataFrame RedirectRow)
    (current_badges : DataFrame BadgeRow) (y : MasterRow)
    (hy : y ∈ (make_master_df redirect_items current_badges).rows) :
    y.redirect_id.isSome = true ∨ y.s2r_badge.isSome = true ∨ y.i2r_badge.isSome = true := by
  simp only [make_master_df] at hy
  rcases outerMerge_shape _ _ _ _ _ y hy with ⟨m, ob, hm, rfl⟩ | ⟨r, hr, rfl⟩
  · rcases outerMerge_shape _ _ _ _ _ m hm with ⟨l, ob2, hl, rfl⟩ | ⟨r2, hr2, rfl⟩
    · left
      cases ob <;> simp [mkI2rRow, mkS2rRow]
    · right; left
      cases ob <;> simp [mkI2rRow, mkS2rRow, emptyMasterRow]
  · right; right
    simp [mkI2rRow, emptyMasterRow]

/-- Claim C2: on every master relation the Joiner can produce, the
mistagged-non-redirect bucket (filtered on `redirect_id` null alone, as in
the source) contains exactly the rows satisfying the spec predicate
"no redirect and at least one badge" — every joined row with a null
`redirect_id` carries at least one badge field. -/
theorem C2_mistagged_bucket (ri : List RedirectRow) (cb : List RawBadgeRow) :
    filter_non_redirects_with_badges
        (make_master_df (query_redirect_pages_linked_to_wikidata_item ri)
          (query_redirect_badges cb)).rows
      = (make_master_df (query_redirect_pages_linked_to_wikidata_item ri)
          (query_redirect_badges cb)).rows.filter
          (fun r => r.redirect_id.isNone && (r.s2r_badge.isSome || r.i2r_badge.isSome)) := by
  unfold filter_non_redirects_with_badges
  apply List.filter_congr
  intro x hx
  rcases master_row_member_shape _ _ x hx with h | h | h
  · cases hred : x.redirect_id with
    | some v => simp [hred]
    | none => rw [hred] at h; simp at h
  · simp [h, Bool.and_eq_true]
  · simp [h, Bool.and_eq_true]

/-- Counterexample for C6: with a one-row redirect relation and an empty
badge relation (so one source relation is empty), the Joiner's master
relation has one row, not zero rows as the claim states. -/
theorem C6_joiner_empty_sources_counterexample :
    (query_redirect_badges []).rows = []
    ∧ (make_master_df (query_redirect_pages_linked_to_wikidata_item [sampleRedirectRow])
        (query_redirect_badges [])).rows.length ≠ 0 := by
  constructor
  · rfl
  · decide

/-- Over a left relation whose merge keys are all null, the matching part
of an outer merge degenerates: every left row is unmatched and kept once
with the right side null. -/
theorem flatMap_unmatched {α β γ : Type} (keyL : α → Option String) (keyR : β → String)
    (mk : Option α → Option β → γ) (rs : List β) :
    ∀ ls : List α, (∀ l ∈ ls, keyL l = none) →
    ls.flatMap (fun l =>
      if ((rs.filter (fun r => keyL l == some (keyR r))).isEmpty) then [mk (some l) none]
      else (rs.filter (fun r => keyL l == some (keyR r))).map (fun r => mk (some l) (some r)))
    = ls.map (fun l => mk (some l) none) := by
  intro ls
  induction ls with
  | nil => intro _; rfl
  | cons a as ih =>
    intro h
    have ha : keyL a = none := h a (List.mem_cons_self a as)
    have hfil : rs.filter (fun r => keyL a == some (keyR r)) = [] := by
      apply List.filter_eq_nil_iff.mpr
      intro r _
      simp [ha]
    rw [List.flatMap_cons, hfil]
    simp only [List.isEmpty_nil, if_true]
    rw [List.map_cons, ← ih (fun l hl => h l (List.mem_cons_of_mem a hl))]
    rfl

/-- An outer merge whose left keys are all null (as for rows that came
only from a badge side) keeps every left row with the right side null,
followed by every right row with the left side null. -/
theorem outerMerge_unmatched_left {α β γ : Type} (keyL : α → Option String) (keyR : β → String)
    (mk : Option α → Option β → γ) (ls : List α) (rs : List β)
    (h : ∀ l ∈ ls, keyL l = none) :
    outerMerge keyL keyR mk ls rs
      = ls.map (fun l => mk (some l) none) ++ rs.map (fun r => mk none (some r)) := by
  unfold outerMerge
  rw [flatMap_unmatched keyL keyR mk rs ls h]
  have hpred : ∀ r ∈ rs, (ls.all (fun l => ! (keyL l == some (keyR r)))) = true := by
    intro r _
    rw [List.all_eq_true]
    intro l hl
    rw [h l hl]
    rfl
  rw [List.filter_eq_self.mpr hpred]

/-- Claim C6 as amended: the Joiner's master relation always carries the
full documented column set (in particular when a source relation is
empty), and it is zero-row only when both source relations are empty:
when the badge relation is empty, every redirect row appears exactly once
with all badge columns null; when the redirect relation is empty, the
S2R-badge rows followed by the I2R-badge rows each appear exactly once
with all redirect columns null — nonzero rows whenever the badge relation
holds a row of one of the two badge kinds. -/
theorem C6_joiner_empty_sources_amended (ri : List RedirectRow) (cb : List RawBadgeRow) :
    (make_master_df (query_redirect_pages_linked_to_wikidata_item ri)
      (query_redirect_badges cb)).cols = masterColumns
    ∧ (cb = [] →
        (make_master_df (query_redirect_pages_linked_to_wikidata_item ri)
          (query_redirect_badges cb)).rows
          = ri.map (fun l =>
              (⟨some l.redirect_id, some l.redirect_namespace, some l.redirect_title,
                some l.redirect_qid, l.target_namespace, l.target_title, l.target_fragment,
                l.target_interwiki, l.target_id, l.target_qid,
                none, none, none, none, none, none, none, none⟩ : MasterRow)))
    ∧ (ri = [] →
        (make_master_df (query_redirect_pages_linked_to_wikidata_item ri)
          (query_redirect_badges cb)).rows
          = ((query_redirect_badges cb).rows.filter (fun b => b.badge == QID_S2R)).map
              (fun r =>
                (⟨none, none, none, none, none, none, none, none, none, none,
                  some r.sitelink, some r.name, some r.badge, some r.qid,
                  none, none, none, none⟩ : MasterRow))
            ++ ((query_redirect_badges cb).rows.filter (fun b => b.badge == QID_I2R)).map
              (fun r =>
                (⟨none, none, none, none, none, none, none, none, none, none,
                  none, none, none, none,
                  some r.sitelink, some r.name, some r.badge, some r.qid⟩ : MasterRow)))
    ∧ (ri = [] → cb = [] →
        (make_master_df (query_redirect_pages_linked_to_wikidata_item ri)
          (query_redirect_badges cb)).rows = [])
    ∧ (ri = [] → cb ≠ [] →
        (∀ raw ∈ cb, raw.badge.drop wdEntityUrl.length = QID_S2R
          ∨ raw.badge.drop wdEntityUrl.length = QID_I2R) →
        (make_master_df (query_redirect_pages_linked_to_wikidata_item ri)
          (query_redirect_badges cb)).rows ≠ []) := by
  have hbadgeside : ri = [] →
      (make_master_df (query_redirect_pages_linked_to_wikidata_item ri)
        (query_redirect_badges cb)).rows
        = ((query_redirect_badges cb).rows.filter (fun b => b.badge == QID_S2R)).map
            (fun r =>
              (⟨none, none, none, none, none, none, none, none, none, none,
                some r.sitelink, some r.name, some r.badge, some r.qid,
                none, none, none, none⟩ : MasterRow))
          ++ ((query_redirect_badges cb).rows.filter (fun b => b.badge == QID_I2R)).map
            (fun r =>
              (⟨none, none, none, none, none, none, none, none, none, none,
                none, none, none, none,
                some r.sitelink, some r.name, some r.badge, some r.qid⟩ : MasterRow)) := by
    intro hri
    subst hri
    simp only [make_master_df, query_redirect_pages_linked_to_wikidata_item]
    rw [outerMerge_unmatched_left _ _ _ _ _ (fun l hl => absurd hl (List.not_mem_nil l))]
    rw [List.map_nil, List.nil_append]
    rw [outerMerge_unmatched_left _ _ _ _ _ ?_]
    · rw [List.map_map]
      rfl
    · intro m hm
      rcases List.mem_map.1 hm with ⟨r, _, rfl⟩
      rfl
  refine ⟨rfl, ?_, hbadgeside, ?_, ?_⟩
  · intro hcb
    subst hcb
    simp only [make_master_df, query_redirect_badges, query_redirect_pages_linked_to_wikidata_item,
      List.map_nil, List.filter_nil, outerMerge_nil_right, List.map_map]
    rfl
  · intro hri hcb
    subst hri
    subst hcb
    rfl
  · intro hri hcb hbr
    rw [hbadgeside hri]
    intro heq
    rcases List.append_eq_nil.1 heq with ⟨h1, h2⟩
    rcases cb with _ | ⟨raw, rest⟩
    · exact hcb rfl
    · have hmem : (⟨raw.sitelink, raw.name, raw.badge.drop wdEntityUrl.length,
          raw.item.drop wdEntityUrl.length⟩ : BadgeRow)
          ∈ (query_redirect_badges (raw :: rest)).rows := by
        simp [query_redirect_badges]
      rcases hbr raw (List.mem_cons_self raw rest) with hb | hb
      · have hmf : (⟨raw.sitelink, raw.name, raw.badge.drop wdEntityUrl.length,
            raw.item.drop wdEntityUrl.length⟩ : BadgeRow)
            ∈ (query_redirect_badges (raw :: rest)).rows.filter (fun b => b.badge == QID_S2R) :=
          List.mem_filter.2 ⟨hmem, by simp [hb]⟩
        rw [List.map_eq_nil_iff.1 h1] at hmf
        exact absurd hmf (List.not_mem_nil _)
      · have hmf : (⟨raw.sitelink, raw.name, raw.badge.drop wdEntityUrl.length,
            raw.item.drop wdEntityUrl.length⟩ : BadgeRow)
            ∈ (query_redirect_badges (raw :: rest)).rows.filter (fun b => b.badge == QID_I2R) :=
          List.mem_filter.2 ⟨hmem, by simp [hb]⟩
        rw [List.map_eq_nil_iff.1 h2] at hmf
        exact absurd hmf (List.not_mem_nil _)

set_option maxRecDepth 8192 in
/-- Witness for C6 (amended): with both sources empty the master relation
has the full column set and no rows; with only the badge relation empty
the single redirect row is preserved with all badge columns null; with
only the redirect relation empty the S2R badge row is preserved (non-empty
master relation) with all redirect columns null. -/
theorem C6_joiner_empty_sources_amended_witness :
    (make_master_df (query_redirect_pages_linked_to_wikidata_item [])
      (query_redirect_badges [])).cols = masterColumns
    ∧ (make_master_df (query_redirect_pages_linked_to_wikidata_item [])
        (query_redirect_badges [])).rows = []
    ∧ (make_master_df (query_redirect_pages_linked_to_wikidata_item [sampleRedirectRow])
        (query_redirect_badges [])).rows
      = [⟨some "123", some 0, some "Some_page", some "Q100", some 0, some "Target_page",
          none, none, none, none, none, none, none, none, none, none, none, none⟩]
    ∧ (make_master_df (query_redirect_pages_linked_to_wikidata_item [])
        (query_redirect_badges [sampleRawBadgeRow])).rows ≠ []
    ∧ (make_master_df (query_redirect_pages_linked_to_wikidata_item [])
        (query_redirect_badges [sampleRawBadgeRow])).rows
      = [⟨none, none, none, none, none, none, none, none, none, none,
          some "https://en.wikipedia.org/wiki/X", some "X", some "Q70893996", some "Q5",
          none, none, none, none⟩] := by
  refine ⟨(C6_joiner_empty_sources_amended [] []).1,
    (C6_joiner_empty_sources_amended [] []).2.2.2.1 rfl rfl, ?_, ?_, ?_⟩
  · rw [(C6_joiner_empty_sources_amended [sampleRedirectRow] []).2.1 rfl]
    rfl
  · exact (C6_joiner_empty_sources_amended [] [sampleRawBadgeRow]).2.2.2.2 rfl
      (by decide) (by decide)
  · rw [(C6_joiner_empty_sources_amended [] [sampleRawBadgeRow]).2.2.1 rfl]
    decide

/-- Counterexample for C7: on a payload with nine pairwise distinct
counts, the statistics line the source writes differs from a line in the
spec's claimed bucket-list order (the source writes the informational
badge counts before the inexistent/unconnected-target counts). -/
theorem C7_stats_line_order_counterexample :
    log_project_stats "xxwiki" statsDistinct ≠ spec_claimed_stats_line "xxwiki" statsDistinct := by
  decide

/-- Claim C7 as amended: each statistics line is the project name followed
by exactly nine tab-separated counts, in the source's fixed order
(all_redirects, any_tag, kind_a_only, kind_b_only, untagged, both_tags,
mistagged_non_redirect, inexistent_target, unconnected_target), each count
the row count of the corresponding bucket filter on the master snapshot. -/
theorem C7_stats_line_order_amended (dbname : String) (df : List MasterRow) :
    log_project_stats dbname (project_stats df)
      = dbname ++ "\t" ++ toString (filter_all_redirects df).length ++ "\t"
        ++ toString (filter_redirects_with_any_badge df).length ++ "\t"
        ++ toString (filter_redirects_with_s2r_badge df).length ++ "\t"
        ++ toString (filter_redirects_with_i2r_badge df).length ++ "\t"
        ++ toString (filter_redirects_without_badge df).length ++ "\t"
        ++ toString (filter_redirects_with_both_badges df).length ++ "\t"
        ++ toString (filter_non_redirects_with_badges df).length ++ "\t"
        ++ toString (filter_redirects_with_inexistent_target df).length ++ "\t"
        ++ toString (filter_redirects_with_unconnected_target df).length ++ "\n"
    ∧ (statsLineCounts (project_stats df)).length = 9 :=
  ⟨rfl, rfl⟩

/-- Counterexample for C8: for a namespace whose canonical name equals its
local name, the report still appends the parenthetical canonical name,
contradicting the claim that it is appended only when the names differ. -/
theorem C8_namespace_display_counterexample :
    (nsMapSame 1).map NsNames.canonical = (nsMapSame 1).map NsNames.local_name
    ∧ (resolveNamespaceParts nsMapSame 1).2 = " (Talk)"
    ∧ " (Talk)" ≠ "" := by
  refine ⟨rfl, rfl, by decide⟩

/-- Claim C8 as amended: namespace 0 renders as empty strings; a nonzero
namespace renders the local name followed by a colon and always appends
the canonical name in parentheses, whether or not it differs from the
local name (both names default to empty for an unknown namespace id). -/
theorem C8_namespace_display_amended (namespaces : Int → Option NsNames) (ns : Int)
    (loc canon : String) :
    (ns = 0 → resolveNamespaceParts namespaces ns = ("", ""))
    ∧ (ns ≠ 0 → namespaces ns = some ⟨loc, canon⟩ →
        resolveNamespaceParts namespaces ns = (loc ++ ":", " (" ++ canon ++ ")"))
    ∧ (ns ≠ 0 → namespaces ns = none →
        resolveNamespaceParts namespaces ns = ("" ++ ":", " (" ++ "" ++ ")")) := by
  refine ⟨?_, ?_, ?_⟩
  · intro h
    simp [resolveNamespaceParts, h]
  · intro h hsome
    simp [resolveNamespaceParts, h, hsome]
  · intro h hnone
    simp [resolveNamespaceParts, h, hnone]

/-- Witness for C8 (amended): at namespace 0 the parts are empty; at
namespace 1 of the sample table the local name is followed by the
parenthetical canonical name even though the two names are equal. -/
theorem C8_namespace_display_amended_witness :
    resolveNamespaceParts nsMapSame 0 = ("", "")
    ∧ resolveNamespaceParts nsMapSame 1 = ("Talk" ++ ":", " (" ++ "Talk" ++ ")") :=
  ⟨(C8_namespace_display_amended nsMapSame 0 "x" "y").1 rfl,
   (C8_namespace_display_amended nsMapSame 1 "Talk" "Talk").2.1 (by decide) rfl⟩
